import Mathlib

/-
Verification of the AniMate activity-tracking and notification-scheduling
engine. The definitions below are a shallow embedding of the JavaScript
source (service worker, config, AI client, calendar client). Timestamps and
durations are modelled as Int (milliseconds), calendar dates as String keys
of the form YYYY-MM-DD, and the IndexedDB stores as association lists.
-/

namespace AniMate

/-! ## JavaScript numeric idioms -/

/-- JS expression `v || d` applied to an optional numeric setting: both
`undefined` and `0` are falsy, so they fall through to the default. -/
def jsOr (v : Option Int) (d : Int) : Int :=
  match v with
  | none => d
  | some x => if x = 0 then d else x

/-- JS `Math.round (num / den)` for `den > 0`: floor of the ratio plus one
half, computed exactly over the integers. -/
def jsRound (num den : Int) : Int :=
  (2 * num + den).fdiv (2 * den)

/-! ## Settings (src/utils/config.js)

`DEFAULT_CONFIG` is split by value type; only the numeric and boolean
entries are consulted by the engine paths under verification. -/

/-- Numeric entries of DEFAULT_CONFIG in src/utils/config.js. Note that
the key `focusGoalMinutes` read by aggregateDailyStats is absent. -/
def DEFAULT_CONFIG_INT : List (String × Int) :=
  [("retentionDays", 30),
   ("dailyFocusGoalMinutes", 240),
   ("distractionAlertMinutes", 60),
   ("tabWarningThreshold", 20),
   ("autoSnapshotMinutes", 60),
   ("clipboardContextChars", 500),
   ("monthlyAiBudgetCents", 1000),
   ("batchClassificationIntervalMinutes", 5),
   ("morningBriefingHour", 9),
   ("readyCheckHour", 10),
   ("endOfDayHour", 18),
   ("meetingWarningMinutes", 5),
   ("popupWidth", 400),
   ("popupHeight", 500)]

/-- Boolean entries of DEFAULT_CONFIG in src/utils/config.js. -/
def DEFAULT_CONFIG_BOOL : List (String × Bool) :=
  [("autoExport", true),
   ("enableDistractionAlerts", true),
   ("enableTabWarnings", true),
   ("detectCodeSnippets", true),
   ("aiEnabled", true),
   ("enableMorningBriefing", true),
   ("enableStartNudges", true),
   ("enableEndOfDaySummary", true),
   ("enableMeetingAwareness", true)]

/-- The settings store (numeric records): user-set values keyed by name. -/
abbrev SettingsStore := List (String × Int)

/-- The settings store (boolean records). -/
abbrev BoolSettingsStore := List (String × Bool)

/-- getSetting in src/utils/config.js, for a numeric key: the stored record
wins, else the default, else undefined (`none`). -/
def getSetting (store : SettingsStore) (key : String) : Option Int :=
  match List.lookup key store with
  | some v => some v
  | none => List.lookup key DEFAULT_CONFIG_INT

/-- getSetting in src/utils/config.js, for a boolean key. -/
def getSettingBool (store : BoolSettingsStore) (key : String) : Option Bool :=
  match List.lookup key store with
  | some v => some v
  | none => List.lookup key DEFAULT_CONFIG_BOOL

/-- KNOWN_PRODUCTIVE in src/utils/config.js (static allow list). -/
def KNOWN_PRODUCTIVE : List String :=
  ["github.com", "gitlab.com", "bitbucket.org", "stackoverflow.com",
   "developer.mozilla.org", "docs.google.com", "notion.so", "linear.app",
   "jira.atlassian.com", "trello.com", "asana.com", "figma.com",
   "vercel.com", "netlify.com", "aws.amazon.com",
   "console.cloud.google.com", "portal.azure.com", "claude.ai",
   "chat.openai.com", "localhost"]

/-- KNOWN_DISTRACTIONS in src/utils/config.js (static deny list). It is
exported but no function of the repository ever reads it. -/
def KNOWN_DISTRACTIONS : List String :=
  ["twitter.com", "x.com", "facebook.com", "instagram.com", "reddit.com",
   "youtube.com", "tiktok.com", "netflix.com", "twitch.tv", "discord.com",
   "hulu.com", "disneyplus.com", "primevideo.com", "9gag.com",
   "buzzfeed.com"]

/-! ## Classification cache (domain_classifications store) -/

/-- One record of the domain_classifications store (keyed by domain).
The confidence and reason fields are carried by the source records but no
verified path reads them, so they are omitted here. -/
structure DomainClassification where
  domain : String
  classification : String
  source : String
deriving Repr, DecidableEq

/-- db.get("domain_classifications", domain): primary-key read. -/
def cacheGet (cache : List DomainClassification) (domain : String) :
    Option DomainClassification :=
  cache.find? (fun r => r.domain = domain)

/-- db.put("domain_classifications", rec): keyed upsert, replacing the
record with the same domain if present, else appending. -/
def cachePut (cache : List DomainClassification) (rec : DomainClassification) :
    List DomainClassification :=
  match cache with
  | [] => [rec]
  | c :: rest =>
    if c.domain = rec.domain then rec :: rest else c :: cachePut rest rec

/-- checkIfProductive in src/background/service-worker.js: the static allow
list is consulted first, then the classification cache. -/
def checkIfProductive (cache : List DomainClassification) (domain : String) :
    Bool :=
  if KNOWN_PRODUCTIVE.contains domain then true
  else
    match cacheGet cache domain with
    | some c => c.classification = "productive"
    | none => false

/-! ## Session records (browsing_sessions store) -/

/-- A persisted browsing session record. -/
structure Session where
  url : String
  domain : String
  title : String
  startTime : Int
  endTime : Int
  duration : Int
  date : String
  classification : String
  expiresAt : Int
deriving Repr, DecidableEq

/-! ## Daily aggregation (aggregateDailyStats) -/

/-- One entry of the per-domain aggregation map: insertion-ordered, the
classification recorded is the one computed when the domain was first
seen. -/
structure DomainEntry where
  domain : String
  duration : Int
  classification : String
deriving Repr, DecidableEq

/-- The daily_stats record written by aggregateDailyStats. -/
structure DailyStats where
  date : String
  totalTime : Int
  productiveTime : Int
  distractionTime : Int
  neutralTime : Int
  topDomains : List DomainEntry
  goalProgress : Int
  sessionCount : Nat
  updatedAt : Int
deriving Repr, DecidableEq

/-- Per-session classification resolution inside aggregateDailyStats:
the stamped value if not "unclassified" (with JS || defaulting), else the
cached classification if a cache record exists, else "unclassified". -/
def resolveClassification (cache : List DomainClassification) (s : Session) :
    String :=
  let c := if s.classification = "" then "unclassified" else s.classification
  if c = "unclassified" then
    match cacheGet cache s.domain with
    | some r => r.classification
    | none => c
  else c

/-- domainMap.get / set step of aggregateDailyStats: add the duration onto
an existing entry (keeping its first classification), else append a fresh
entry at the end, as a JS Map preserves insertion order. -/
def updateDomainMap (m : List DomainEntry) (domain : String) (duration : Int)
    (cls : String) : List DomainEntry :=
  match m with
  | [] => [⟨domain, duration, cls⟩]
  | e :: rest =>
    if e.domain = domain then { e with duration := e.duration + duration } :: rest
    else e :: updateDomainMap rest domain duration cls

/-- Accumulator of the session loop in aggregateDailyStats. -/
structure AggAcc where
  totalTime : Int
  productiveTime : Int
  distractionTime : Int
  neutralTime : Int
  domainMap : List DomainEntry
deriving Repr, DecidableEq

/-- Body of the session loop in aggregateDailyStats. -/
def aggStep (cache : List DomainClassification) (acc : AggAcc) (s : Session) :
    AggAcc :=
  let d := s.duration
  let cls := resolveClassification cache s
  let acc := { acc with
    totalTime := acc.totalTime + d
    domainMap := updateDomainMap acc.domainMap s.domain d cls }
  if cls = "productive" then
    { acc with productiveTime := acc.productiveTime + d }
  else if cls = "distraction" then
    { acc with distractionTime := acc.distractionTime + d }
  else
    { acc with neutralTime := acc.neutralTime + d }

/-- aggregateDailyStats in src/background/service-worker.js: folds the
sessions of the day, sorts the per-domain totals descending (stable),
keeps the top 20, computes the goal progress from the `focusGoalMinutes`
setting with JS || defaulting to 240, and returns the daily_stats record
stamped with the current time. -/
def aggregateDailyStats (today : String) (sessions : List Session)
    (cache : List DomainClassification) (store : SettingsStore) (now : Int) :
    DailyStats :=
  let acc := sessions.foldl (aggStep cache) ⟨0, 0, 0, 0, []⟩
  let topDomains :=
    (acc.domainMap.mergeSort (fun a b => decide (b.duration ≤ a.duration))).take 20
  let goalMinutes := jsOr (getSetting store "focusGoalMinutes") 240
  let goalProgress :=
    min (jsRound (100 * acc.productiveTime) (goalMinutes * 60000)) 100
  { date := today
    totalTime := acc.totalTime
    productiveTime := acc.productiveTime
    distractionTime := acc.distractionTime
    neutralTime := acc.neutralTime
    topDomains := topDomains
    goalProgress := goalProgress
    sessionCount := sessions.length
    updatedAt := now }

/-! ## Session tracker (tab events, heartbeat) -/

/-- JS `haystack.includes pat` on character lists. -/
def listIncludes (pat : List Char) : List Char → Bool
  | [] => pat.isEmpty
  | c :: rest => List.isPrefixOf pat (c :: rest) || listIncludes pat rest

/-- JS `haystack.includes pat` on strings. -/
def strIncludes (haystack pat : String) : Bool :=
  listIncludes pat.data haystack.data

/-- JS `toLowerCase`, modelled characterwise. -/
def strToLower (s : String) : String :=
  ⟨s.data.map Char.toLower⟩

/-- JS `url.startsWith pat`, modelled characterwise. -/
def strStartsWith (s pat : String) : Bool :=
  List.isPrefixOf pat.data s.data

/-- The auth/SSO URL patterns of shouldExclude in
src/background/service-worker.js. -/
def authPatterns : List String :=
  ["accounts.google.com", "login.microsoftonline.com", "auth0.com",
   "/login", "/signin", "/auth", "/oauth", "/sso"]

/-- shouldExclude in src/background/service-worker.js. A missing URL is
modelled as the empty string (falsy in JS). -/
def shouldExclude (url : String) : Bool :=
  if url = "" then true
  else if strStartsWith url "chrome://" || strStartsWith url "chrome-extension://" then
    true
  else if strStartsWith url "about:" then true
  else authPatterns.any (fun pattern => strIncludes (strToLower url) pattern)

/-- The in-memory activeTabState value of the service worker. -/
structure TabState where
  url : String
  domain : String
  title : String
  startTime : Int
  date : String
  classification : String
  expiresAt : Int
deriving Repr, DecidableEq

/-- Closes a tab state into a persisted session record with
endTime = now and duration = now - startTime. -/
def closeSession (st : TabState) (now : Int) : Session :=
  { url := st.url, domain := st.domain, title := st.title
    startTime := st.startTime, endTime := now
    duration := now - st.startTime, date := st.date
    classification := st.classification, expiresAt := st.expiresAt }

/-- handleTabChange in src/background/service-worker.js. The hostname
extraction of `new URL(url).hostname` is abstracted as `domainOf`, and the
calendar date derived from the clock as `today`; neither affects whether a
record is persisted. Returns the new activeTabState and the session record
handed to db.put (if any): the old session is persisted only when its
duration exceeds 1000 ms, and the new state is dropped when the URL is
excluded. -/
def handleTabChange (domainOf : String → String) (today : String)
    (state : Option TabState) (tabUrl tabTitle : String) (now : Int) :
    Option TabState × Option Session :=
  let persisted : Option Session :=
    match state with
    | some st => if now - st.startTime > 1000 then some (closeSession st now) else none
    | none => none
  if shouldExclude tabUrl then (none, persisted)
  else
    (some { url := tabUrl, domain := domainOf tabUrl, title := tabTitle
            startTime := now, date := today, classification := "unclassified"
            expiresAt := now + 30 * 24 * 60 * 60 * 1000 }, persisted)

/-- persistActiveSession in src/background/service-worker.js (heartbeat):
persists a partial record when the open session has run for more than
5000 ms and resets the start boundary to now. -/
def persistActiveSession (state : Option TabState) (now : Int) :
    Option Session × Option TabState :=
  match state with
  | none => (none, none)
  | some st =>
    if now - st.startTime > 5000 then
      (some (closeSession st now), some { st with startTime := now })
    else (none, some st)

/-! ## Batch classification (src/api/anthropic client + service worker) -/

/-- One element of the structured response of the external classifier. -/
structure ClassificationItem where
  domain : String
  classification : String
deriving Repr, DecidableEq

/-- The external classifier collaborator: maps the batch handed to the API
to its parsed structured response, or `none` when the call or the parse
throws. -/
abbrev ClassifierApi := List String → Option (List ClassificationItem)

/-- Outcome of classifyDomains: the batches handed to the external API and
the parsed result (`none` when the call threw). -/
structure ClassifyOutcome where
  calls : List (List String)
  result : Option (List ClassificationItem)
deriving Repr, DecidableEq

/-- classifyDomains in the Anthropic API client: an empty input returns
immediately with no external call; otherwise a single request is issued
carrying only the first 20 domains. -/
def classifyDomains (api : ClassifierApi) (domains : List String) :
    ClassifyOutcome :=
  if domains.isEmpty then { calls := [], result := some [] }
  else
    let batch := domains.take 20
    { calls := [batch], result := api batch }

/-- The uncached-domain collection loop of batchClassifyDomains: domains of
still-unclassified sessions with no cache record, deduplicated in first-seen
order (JS Set insertion order). -/
def uncachedDomains (sessions : List Session)
    (cache : List DomainClassification) : List String :=
  sessions.foldl
    (fun acc s =>
      if s.classification = "unclassified" ∧ cacheGet cache s.domain = none
          ∧ ¬ acc.contains s.domain
      then acc ++ [s.domain] else acc) []

/-- Outcome of one batchClassifyDomains pass. -/
structure BatchOutcome where
  calls : List (List String)
  cache : List DomainClassification
deriving Repr, DecidableEq

/-- batchClassifyDomains in src/background/service-worker.js: collects the
uncached domains of the day, returns with no call when there are none, else
hands the first 20 to classifyDomains; on success every returned item is
upserted with source "ai", on failure the error is logged and nothing is
written. -/
def batchClassifyDomains (api : ClassifierApi) (sessions : List Session)
    (cache : List DomainClassification) : BatchOutcome :=
  let uncached := uncachedDomains sessions cache
  if uncached.isEmpty then { calls := [], cache := cache }
  else
    let domainsToClassify := uncached.take 20
    let o := classifyDomains api domainsToClassify
    match o.result with
    | some items =>
      { calls := o.calls
        cache := items.foldl
          (fun c it => cachePut c ⟨it.domain, it.classification, "ai"⟩) cache }
    | none => { calls := o.calls, cache := cache }

/-- The CLASSIFY_DOMAIN message handler in
src/background/service-worker.js, with AI enabled: cached domains are
answered from the cache; uncached ones are classified through
classifyDomains, and on success each item is upserted with source "ai"; on
failure the handler falls back to neutral records with source "fallback"
that are pushed onto the reply but never written to the cache. Returns the
reply list and the resulting cache. -/
def classifyDomainHandler (api : ClassifierApi) (domains : List String)
    (cache : List DomainClassification) :
    List DomainClassification × List DomainClassification :=
  let cachedResults := domains.filterMap (fun d => cacheGet cache d)
  let uncached := domains.filter (fun d => (cacheGet cache d).isNone)
  if uncached.isEmpty then (cachedResults, cache)
  else
    match (classifyDomains api uncached).result with
    | some items =>
      let recs := items.map
        (fun it => (⟨it.domain, it.classification, "ai"⟩ : DomainClassification))
      (cachedResults ++ recs,
       recs.foldl (fun c r => cachePut c r) cache)
    | none =>
      (cachedResults ++ uncached.map (fun d => ⟨d, "neutral", "fallback"⟩),
       cache)

/-! ## Notification scheduler (executive function state) -/

/-- The in-memory dailyState singleton of the service worker. -/
structure DailyState where
  date : Option String
  morningBriefingSent : Bool
  readyNudgeSent : Bool
  firstProductiveCelebrated : Bool
  lastDistractionAlert : Int
  oneHourCelebrated : Bool
  goalCelebrated : Bool
deriving Repr, DecidableEq

/-- The cleared dailyState value assigned on rollover. -/
def freshDailyState (today : String) : DailyState :=
  { date := some today, morningBriefingSent := false, readyNudgeSent := false
    firstProductiveCelebrated := false, lastDistractionAlert := 0
    oneHourCelebrated := false, goalCelebrated := false }

/-- resetDailyStateIfNeeded in src/background/service-worker.js: replaces
the whole ledger when the stored day differs from the wall-clock day. -/
def resetDailyStateIfNeeded (today : String) (s : DailyState) : DailyState :=
  if s.date = some today then s else freshDailyState today

/-- The wall-clock and store inputs of one dispatcher activation: the local
calendar day, local hour and minute, the millisecond clock, and the
daily_stats record read for the day (none when absent). -/
structure TickEnv where
  day : String
  hour : Int
  minute : Int
  now : Int
  stats : Option DailyStats
deriving Repr, DecidableEq

/-- checkMorningBriefing: resets the ledger, returns early when already
sent or disabled, fires inside the first two minutes of the configured
hour. The collaborator fetches composing the body are wrapped in safeCall
and cannot block the firing. -/
def checkMorningBriefing (ints : SettingsStore) (bools : BoolSettingsStore)
    (t : TickEnv) (s : DailyState) : DailyState × Bool :=
  let s := resetDailyStateIfNeeded t.day s
  if s.morningBriefingSent then (s, false)
  else if getSettingBool bools "enableMorningBriefing" = some false then (s, false)
  else
    let briefingHour := jsOr (getSetting ints "morningBriefingHour") 9
    if t.hour = briefingHour ∧ t.minute < 2 then
      ({ s with morningBriefingSent := true }, true)
    else (s, false)

/-- checkReadyToStart: fires inside the first two minutes of the configured
hour when the day has seen less than one minute of productive time. -/
def checkReadyToStart (ints : SettingsStore) (bools : BoolSettingsStore)
    (t : TickEnv) (s : DailyState) : DailyState × Bool :=
  let s := resetDailyStateIfNeeded t.day s
  if s.readyNudgeSent || s.firstProductiveCelebrated then (s, false)
  else if getSettingBool bools "enableStartNudges" = some false then (s, false)
  else
    let nudgeHour := jsOr (getSetting ints "readyCheckHour") 10
    if t.hour = nudgeHour ∧ t.minute < 2 then
      match t.stats with
      | none => ({ s with readyNudgeSent := true }, true)
      | some st =>
        if st.productiveTime < 60000 then ({ s with readyNudgeSent := true }, true)
        else (s, false)
    else (s, false)

/-- checkEndOfDay: the dedup is a durable per-date marker in the settings
store, written before the stats are consulted; the notification itself also
needs a positive productive total. Returns the marker set and whether the
notification fired. -/
def checkEndOfDay (ints : SettingsStore) (bools : BoolSettingsStore)
    (t : TickEnv) (markers : List String) : List String × Bool :=
  if getSettingBool bools "enableEndOfDaySummary" = some false then
    (markers, false)
  else
    let summaryHour := jsOr (getSetting ints "endOfDayHour") 18
    let key := "eod_" ++ t.day
    if markers.contains key then (markers, false)
    else if t.hour = summaryHour ∧ t.minute < 2 then
      let markers := markers ++ [key]
      match t.stats with
      | some st => if st.productiveTime > 0 then (markers, true) else (markers, false)
      | none => (markers, false)
    else (markers, false)

/-- checkProgressMilestones: two latched daily-once rules evaluated on the
heartbeat, for one hour of productive time and for the configured daily
goal. Returns the state and the two fired flags. -/
def checkProgressMilestones (ints : SettingsStore) (t : TickEnv)
    (s : DailyState) : DailyState × Bool × Bool :=
  let s := resetDailyStateIfNeeded t.day s
  match t.stats with
  | none => (s, false, false)
  | some st =>
    let productiveMs := st.productiveTime
    let goalMs := jsOr (getSetting ints "dailyFocusGoalMinutes") 240 * 60000
    let r1 :=
      if ¬ s.oneHourCelebrated ∧ productiveMs ≥ 3600000 then
        ({ s with oneHourCelebrated := true }, true)
      else (s, false)
    let s := r1.1
    let r2 :=
      if ¬ s.goalCelebrated ∧ productiveMs ≥ goalMs then
        ({ s with goalCelebrated := true }, true)
      else (s, false)
    (r2.1, r1.2, r2.2)

/-- checkDistractionAlert: repeatable rule with a 30-minute cooldown kept
in lastDistractionAlert; fires when the distraction total of the day is at
or above the configured threshold. -/
def checkDistractionAlert (ints : SettingsStore) (bools : BoolSettingsStore)
    (t : TickEnv) (s : DailyState) : DailyState × Bool :=
  let s := resetDailyStateIfNeeded t.day s
  if getSettingBool bools "enableDistractionAlerts" = some false then (s, false)
  else if t.now - s.lastDistractionAlert < 30 * 60 * 1000 then (s, false)
  else
    match t.stats with
    | none => (s, false)
    | some st =>
      let thresholdMs := jsOr (getSetting ints "distractionAlertMinutes") 60 * 60000
      if st.distractionTime ≥ thresholdMs then
        ({ s with lastDistractionAlert := t.now }, true)
      else (s, false)

/-- celebrateFirstProductiveAction: the event-triggered daily-once rule
raised on transition into a session whose domain the productive check
accepts. -/
def celebrateFirstProductiveAction (cache : List DomainClassification)
    (t : TickEnv) (domain : String) (s : DailyState) : DailyState × Bool :=
  let s := resetDailyStateIfNeeded t.day s
  if s.firstProductiveCelebrated then (s, false)
  else if checkIfProductive cache domain then
    ({ s with firstProductiveCelebrated := true }, true)
  else (s, false)

/-- Which handler a dispatcher activation runs: the heartbeat alarm (which
evaluates the milestone and distraction rules), one of the minute alarms,
or a tab-change event carrying the newly entered domain. -/
inductive Dispatch where
  | heartbeat : Dispatch
  | morningBriefing : Dispatch
  | readyCheck : Dispatch
  | endOfDay : Dispatch
  | tabEvent : String → Dispatch
deriving Repr, DecidableEq

/-- One scheduler tick: the dispatched handler plus its clock inputs. -/
structure Tick where
  dispatch : Dispatch
  env : TickEnv
deriving Repr, DecidableEq

/-- Which rules fired during one dispatcher activation. -/
structure Fired where
  morning : Bool := false
  ready : Bool := false
  firstProd : Bool := false
  oneHour : Bool := false
  goal : Bool := false
  eod : Bool := false
  distraction : Bool := false
deriving Repr, DecidableEq

/-- One dispatcher activation over the ledger and the durable marker set:
runs exactly the checks the dispatched alarm or event runs. -/
def schedStep (ints : SettingsStore) (bools : BoolSettingsStore)
    (cache : List DomainClassification) (t : Tick)
    (st : DailyState × List String) : (DailyState × List String) × Fired :=
  match t.dispatch with
  | .heartbeat =>
    let r1 := checkProgressMilestones ints t.env st.1
    let r2 := checkDistractionAlert ints bools t.env r1.1
    ((r2.1, st.2), { oneHour := r1.2.1, goal := r1.2.2, distraction := r2.2 })
  | .morningBriefing =>
    let r := checkMorningBriefing ints bools t.env st.1
    ((r.1, st.2), { morning := r.2 })
  | .readyCheck =>
    let r := checkReadyToStart ints bools t.env st.1
    ((r.1, st.2), { ready := r.2 })
  | .endOfDay =>
    let r := checkEndOfDay ints bools t.env st.2
    ((st.1, r.1), { eod := r.2 })
  | .tabEvent domain =>
    let r := celebrateFirstProductiveAction cache t.env domain st.1
    ((r.1, st.2), { firstProd := r.2 })

/-- Runs a sequence of dispatcher activations, collecting the fired flags
of every tick. -/
def runSched (ints : SettingsStore) (bools : BoolSettingsStore)
    (cache : List DomainClassification) :
    List Tick → DailyState × List String →
    (DailyState × List String) × List Fired
  | [], st => (st, [])
  | t :: ts, st =>
    let r := schedStep ints bools cache t st
    let rest := runSched ints bools cache ts r.1
    (rest.1, r.2 :: rest.2)

/-- Runs checkDistractionAlert over a sequence of heartbeat ticks and
collects the clock values at which the alert fired. -/
def distractionFireTimes (ints : SettingsStore) (bools : BoolSettingsStore) :
    List TickEnv → DailyState → List Int
  | [], _ => []
  | t :: ts, s =>
    let r := checkDistractionAlert ints bools t s
    let rest := distractionFireTimes ints bools ts r.1
    if r.2 then t.now :: rest else rest

/-! ## Meeting awareness -/

/-- A calendar event as mapped by getTodaysEvents: the identifier and the
millisecond start time. -/
structure CalEvent where
  id : String
  start : Int
deriving Repr, DecidableEq

/-- The event loop of checkMeetingAwareness: for each event not yet in the
notified set, fires when the time until start lies in the half-open window
(W - buffer, W + 2 * buffer] and adds the identifier to the set. Returns
the grown set and the fired identifiers. -/
def meetingLoop (warningWindowMs bufferMs now : Int) :
    List CalEvent → List String → List String × List String
  | [], nm => (nm, [])
  | e :: rest, nm =>
    if nm.contains e.id then meetingLoop warningWindowMs bufferMs now rest nm
    else
      let timeUntilStart := e.start - now
      if warningWindowMs - bufferMs < timeUntilStart
          ∧ timeUntilStart ≤ warningWindowMs + 2 * bufferMs then
        let r := meetingLoop warningWindowMs bufferMs now rest (nm ++ [e.id])
        (r.1, e.id :: r.2)
      else meetingLoop warningWindowMs bufferMs now rest nm

/-- The cleanup loop of checkMeetingAwareness: a notified identifier is
dropped when its event is found in the fetched list and started more than
one hour ago. -/
def pruneNotified (now : Int) (events : List CalEvent) (nm : List String) :
    List String :=
  nm.filter (fun id =>
    match events.find? (fun e => e.id = id) with
    | some e => if now - e.start > 60 * 60 * 1000 then false else true
    | none => true)

/-- checkMeetingAwareness in src/background/service-worker.js: returns the
updated notified set and the identifiers warned about on this tick. -/
def checkMeetingAwareness (ints : SettingsStore) (bools : BoolSettingsStore)
    (now : Int) (events : List CalEvent) (nm : List String) :
    List String × List String :=
  if getSettingBool bools "enableMeetingAwareness" = some false then (nm, [])
  else if events.isEmpty then (nm, [])
  else
    let warningWindowMs := jsOr (getSetting ints "meetingWarningMinutes") 5 * 60000
    let bufferMs : Int := 60 * 1000
    let r := meetingLoop warningWindowMs bufferMs now events nm
    (pruneNotified now events r.1, r.2)

/-! ## Stale-tolerant remote cache handlers -/

/-- One external_cache record. -/
structure CacheEntry (α : Type) where
  data : α
  fetchedAt : Int
deriving Repr, DecidableEq

/-- A payload handed back by a cache-wrapped handler: the data plus whether
the reply object carried the annotation `stale: true`. -/
structure FetchReply (α : Type) where
  payload : α
  stale : Bool
deriving Repr, DecidableEq

/-- The GET_WEATHER handler in src/background/service-worker.js (15-minute
TTL). The collaborator fetch is modelled by its outcome: some data or a
thrown error. Returns the reply (`none` when the error propagates), whether
the fetcher was invoked, and the resulting cache entry. -/
def getWeatherHandler {α : Type} (cached : Option (CacheEntry α)) (now : Int)
    (fetchOutcome : Option α) :
    Option (FetchReply α) × Bool × Option (CacheEntry α) :=
  match cached with
  | some c =>
    if now - c.fetchedAt < 15 * 60 * 1000 then
      (some { payload := c.data, stale := false }, false, cached)
    else
      match fetchOutcome with
      | some d => (some { payload := d, stale := false }, true, some { data := d, fetchedAt := now })
      | none => (some { payload := c.data, stale := true }, true, cached)
  | none =>
    match fetchOutcome with
    | some d => (some { payload := d, stale := false }, true, some { data := d, fetchedAt := now })
    | none => (none, true, cached)

/-- The GET_GITHUB_REPOS handler: same shape as the weather handler with a
5-minute TTL. -/
def getGithubHandler {α : Type} (cached : Option (CacheEntry α)) (now : Int)
    (fetchOutcome : Option α) :
    Option (FetchReply α) × Bool × Option (CacheEntry α) :=
  match cached with
  | some c =>
    if now - c.fetchedAt < 5 * 60 * 1000 then
      (some { payload := c.data, stale := false }, false, cached)
    else
      match fetchOutcome with
      | some d => (some { payload := d, stale := false }, true, some { data := d, fetchedAt := now })
      | none => (some { payload := c.data, stale := true }, true, cached)
  | none =>
    match fetchOutcome with
    | some d => (some { payload := d, stale := false }, true, some { data := d, fetchedAt := now })
    | none => (none, true, cached)

/-- getTodaysEvents in src/api/google-calendar.js (5-minute TTL): on fetch
failure with a cache entry present, the raw cached array is returned with
no stale annotation. -/
def getTodaysEvents (cached : Option (CacheEntry (List CalEvent))) (now : Int)
    (fetchOutcome : Option (List CalEvent)) :
    Option (FetchReply (List CalEvent)) × Bool × Option (CacheEntry (List CalEvent)) :=
  match cached with
  | some c =>
    if now - c.fetchedAt < 5 * 60 * 1000 then
      (some { payload := c.data, stale := false }, false, cached)
    else
      match fetchOutcome with
      | some evs => (some { payload := evs, stale := false }, true, some { data := evs, fetchedAt := now })
      | none => (some { payload := c.data, stale := false }, true, cached)
  | none =>
    match fetchOutcome with
    | some evs => (some { payload := evs, stale := false }, true, some { data := evs, fetchedAt := now })
    | none => (none, true, cached)

/-! ## Concrete fixtures -/

/-- A single allow-listed session of 3,700,000 ms on 2024-01-01. -/
def ghSession : Session :=
  { url := "https://github.com/", domain := "github.com", title := "GitHub"
    startTime := 0, endTime := 3700000, duration := 3700000
    date := "2024-01-01", classification := "unclassified"
    expiresAt := 2592000000 }

/-- A cache record classifying github.com productive. -/
def ghProductiveRec : DomainClassification :=
  { domain := "github.com", classification := "productive", source := "ai" }

/-- 45 sessions on 45 distinct unresolved domains, all on 2024-01-01. -/
def sessions45 : List Session :=
  (List.range 45).map (fun i => { ghSession with domain := "d" ++ toString i })

/-- The external classifier answering every batch with neutral items. -/
def apiNeutral : ClassifierApi :=
  fun batch => some (batch.map (fun d => { domain := d, classification := "neutral" }))

/-- The external classifier whose every call throws. -/
def apiFail : ClassifierApi :=
  fun _ => none

/-- A daily_stats record past the one-hour milestone, used to exercise a
concrete scheduler day. -/
def statsBusy : DailyStats :=
  { date := "2024-03-05", totalTime := 3700000, productiveTime := 3700000
    distractionTime := 0, neutralTime := 0, topDomains := []
    goalProgress := 26, sessionCount := 1, updatedAt := 0 }

/-- A concrete day of dispatcher activations: repeated morning, heartbeat,
tab-event and end-of-day ticks all on 2024-03-05. -/
def ticksC5 : List Tick :=
  [⟨.morningBriefing, ⟨"2024-03-05", 9, 0, 32400000, some statsBusy⟩⟩,
   ⟨.morningBriefing, ⟨"2024-03-05", 9, 1, 32460000, some statsBusy⟩⟩,
   ⟨.heartbeat, ⟨"2024-03-05", 9, 5, 32700000, some statsBusy⟩⟩,
   ⟨.heartbeat, ⟨"2024-03-05", 9, 6, 32760000, some statsBusy⟩⟩,
   ⟨.tabEvent "github.com", ⟨"2024-03-05", 9, 7, 32820000, some statsBusy⟩⟩,
   ⟨.tabEvent "github.com", ⟨"2024-03-05", 9, 8, 32880000, some statsBusy⟩⟩,
   ⟨.readyCheck, ⟨"2024-03-05", 10, 0, 36000000, some statsBusy⟩⟩,
   ⟨.endOfDay, ⟨"2024-03-05", 18, 0, 64800000, some statsBusy⟩⟩,
   ⟨.endOfDay, ⟨"2024-03-05", 18, 1, 64860000, some statsBusy⟩⟩]

/-- The day-1 stats of the cooldown counterexample: 10 minutes of
distraction time by 23:59. -/
def statsD1 : DailyStats :=
  { date := "2024-01-01", totalTime := 600000, productiveTime := 0
    distractionTime := 600000, neutralTime := 0, topDomains := []
    goalProgress := 0, sessionCount := 1, updatedAt := 0 }

/-- The day-2 stats of the cooldown counterexample: 10 minutes of
distraction time by 00:24. -/
def statsD2 : DailyStats :=
  { date := "2024-01-02", totalTime := 600000, productiveTime := 0
    distractionTime := 600000, neutralTime := 0, topDomains := []
    goalProgress := 0, sessionCount := 1, updatedAt := 0 }

/-! ## C10 helper lemmas -/

theorem aggStep_sum (cache : List DomainClassification) (acc : AggAcc)
    (s : Session)
    (h : acc.totalTime = acc.productiveTime + acc.distractionTime + acc.neutralTime) :
    (aggStep cache acc s).totalTime =
      (aggStep cache acc s).productiveTime + (aggStep cache acc s).distractionTime
        + (aggStep cache acc s).neutralTime := by
  unfold aggStep
  dsimp only
  split
  · simp only []
    omega
  · split
    · simp only []
      omega
    · simp only []
      omega

theorem foldl_aggStep_sum (cache : List DomainClassification) :
    ∀ (sessions : List Session) (acc : AggAcc),
      acc.totalTime = acc.productiveTime + acc.distractionTime + acc.neutralTime →
      (sessions.foldl (aggStep cache) acc).totalTime =
        (sessions.foldl (aggStep cache) acc).productiveTime
          + (sessions.foldl (aggStep cache) acc).distractionTime
          + (sessions.foldl (aggStep cache) acc).neutralTime := by
  intro sessions
  induction sessions with
  | nil => intro acc h; simpa using h
  | cons s rest ih =>
    intro acc h
    simpa using ih (aggStep cache acc s) (aggStep_sum cache acc s h)

/-- C10: every daily snapshot written by the aggregator satisfies
totalTime = productiveTime + distractionTime + neutralTime, and its
sessionCount equals the number of session records read for the day. -/
theorem C10_snapshot_invariant (today : String) (sessions : List Session)
    (cache : List DomainClassification) (store : SettingsStore) (now : Int) :
    (aggregateDailyStats today sessions cache store now).totalTime =
        (aggregateDailyStats today sessions cache store now).productiveTime
          + (aggregateDailyStats today sessions cache store now).distractionTime
          + (aggregateDailyStats today sessions cache store now).neutralTime
      ∧ (aggregateDailyStats today sessions cache store now).sessionCount
          = sessions.length := by
  refine ⟨?_, rfl⟩
  show (sessions.foldl (aggStep cache) ⟨0, 0, 0, 0, []⟩).totalTime = _
  exact foldl_aggStep_sum cache sessions ⟨0, 0, 0, 0, []⟩ (by simp)

/-- C4 counterexample: two aggregation runs over the very same sessions,
cache and settings, executed at clock values 1000 and 31000, write
snapshots that differ (in the updatedAt field), so not every field of the
second snapshot equals the corresponding field of the first. -/
theorem C4_counterexample :
    (aggregateDailyStats "2024-01-01" [ghSession] [] [] 1000).updatedAt = 1000
      ∧ (aggregateDailyStats "2024-01-01" [ghSession] [] [] 31000).updatedAt = 31000
      ∧ aggregateDailyStats "2024-01-01" [ghSession] [] [] 1000
          ≠ aggregateDailyStats "2024-01-01" [ghSession] [] [] 31000 := by
  refine ⟨rfl, rfl, ?_⟩
  intro h
  have := congrArg DailyStats.updatedAt h
  simp [aggregateDailyStats] at this

/-- C4 amended: two aggregation runs over the same session records and
classification cache agree on every snapshot field except updatedAt, which
records the clock value of the respective write. -/
theorem C4_amended (today : String) (sessions : List Session)
    (cache : List DomainClassification) (store : SettingsStore)
    (now₁ now₂ : Int) :
    (aggregateDailyStats today sessions cache store now₁).date
        = (aggregateDailyStats today sessions cache store now₂).date
      ∧ (aggregateDailyStats today sessions cache store now₁).totalTime
        = (aggregateDailyStats today sessions cache store now₂).totalTime
      ∧ (aggregateDailyStats today sessions cache store now₁).productiveTime
        = (aggregateDailyStats today sessions cache store now₂).productiveTime
      ∧ (aggregateDailyStats today sessions cache store now₁).distractionTime
        = (aggregateDailyStats today sessions cache store now₂).distractionTime
      ∧ (aggregateDailyStats today sessions cache store now₁).neutralTime
        = (aggregateDailyStats today sessions cache store now₂).neutralTime
      ∧ (aggregateDailyStats today sessions cache store now₁).topDomains
        = (aggregateDailyStats today sessions cache store now₂).topDomains
      ∧ (aggregateDailyStats today sessions cache store now₁).goalProgress
        = (aggregateDailyStats today sessions cache store now₂).goalProgress
      ∧ (aggregateDailyStats today sessions cache store now₁).sessionCount
        = (aggregateDailyStats today sessions cache store now₂).sessionCount
      ∧ (aggregateDailyStats today sessions cache store now₁).updatedAt = now₁ :=
  ⟨rfl, rfl, rfl, rfl, rfl, rfl, rfl, rfl, rfl⟩

/-- C1 counterexample: for day 2024-01-01 with the single 3,700,000 ms
session on github.com, a domain on the static allow list with no cache
record, the aggregator does not consult the allow list and yields
productiveTime = 0 (the duration lands in the neutral bucket), refuting
the claimed productiveTime = 3,700,000. -/
theorem C1_counterexample :
    KNOWN_PRODUCTIVE.contains "github.com" = true
      ∧ cacheGet [] "github.com" = none
      ∧ (aggregateDailyStats "2024-01-01" [ghSession] [] [] 0).productiveTime ≠ 3700000
      ∧ (aggregateDailyStats "2024-01-01" [ghSession] [] [] 0).neutralTime = 3700000 := by
  refine ⟨by decide, rfl, ?_, by decide⟩
  decide

/-- C1 amended: the static allow list is consulted only by the productive
check of the tracker, where it wins over the cache, the cache deciding
otherwise; the deny list is read nowhere. The aggregator resolves a
session only through its stamped value and the cache, so the scenario
session lands in the neutral bucket (productiveTime = 0) unless a cache
record classifies github.com productive. -/
theorem C1_amended (cache : List DomainClassification) (domain : String) :
    (KNOWN_PRODUCTIVE.contains domain = true →
        checkIfProductive cache domain = true)
      ∧ (KNOWN_PRODUCTIVE.contains domain = false →
          checkIfProductive cache domain =
            (match cacheGet cache domain with
             | some c => decide (c.classification = "productive")
             | none => false))
      ∧ (aggregateDailyStats "2024-01-01" [ghSession] [] [] 0).productiveTime = 0
      ∧ (aggregateDailyStats "2024-01-01" [ghSession] [] [] 0).neutralTime = 3700000
      ∧ (aggregateDailyStats "2024-01-01" [ghSession] [ghProductiveRec] [] 0).productiveTime
          = 3700000
      ∧ (aggregateDailyStats "2024-01-01" [ghSession] [ghProductiveRec] [] 0).distractionTime
          = 0 := by
  refine ⟨?_, ?_, by decide, by decide, by decide, by decide⟩
  · intro h
    unfold checkIfProductive
    rw [h]
    rfl
  · intro h
    unfold checkIfProductive
    rw [h]
    rfl

/-- C1 witness: the amended theorem applied to github.com and the empty
cache. -/
theorem C1_witness :
    checkIfProductive [] "github.com" = true
      ∧ (aggregateDailyStats "2024-01-01" [ghSession] [] [] 0).neutralTime = 3700000 :=
  ⟨(C1_amended [] "github.com").1 (by decide),
   (C1_amended [] "github.com").2.2.2.1⟩

/-- C3: evaluation at the failing input. The user-configured goal is
dailyFocusGoalMinutes = 120 and the day holds 7,200,000 ms of productive
time, so the claimed value is min(100, round(7200000 / 7200000 * 100))
= 100; the aggregator however reads the key focusGoalMinutes, which no
default and no settings surface ever writes, falls back to 240 minutes and
stores 50. -/
theorem C3_code_eval :
    getSetting [("dailyFocusGoalMinutes", 120)] "focusGoalMinutes" = none
      ∧ (aggregateDailyStats "2024-01-01"
            [{ ghSession with endTime := 7200000, duration := 7200000 }]
            [ghProductiveRec] [("dailyFocusGoalMinutes", 120)] 0).goalProgress = 50
      ∧ min (jsRound (100 * 7200000) (120 * 60000)) 100 = 100 := by
  refine ⟨by decide, by decide, by decide⟩

/-- C9: every session record persisted on a context change has
endTime = now, duration = now - startTime (hence endTime ≥ startTime), and
duration above the 1000 ms minimum; a completed session below the minimum
is discarded; heartbeat-persisted partial records also satisfy
endTime ≥ startTime. -/
theorem handleTabChange_snd (domainOf : String → String) (today : String)
    (state : Option TabState) (tabUrl tabTitle : String) (now : Int) :
    (handleTabChange domainOf today state tabUrl tabTitle now).2
      = match state with
        | some st =>
          if now - st.startTime > 1000 then some (closeSession st now) else none
        | none => none := by
  unfold handleTabChange
  dsimp only
  split <;> rfl

theorem C9_session_bounds (domainOf : String → String) (today : String)
    (state : Option TabState) (tabUrl tabTitle : String) (now : Int) :
    (∀ s : Session,
        (handleTabChange domainOf today state tabUrl tabTitle now).2 = some s →
          s.endTime = now ∧ s.duration = now - s.startTime
            ∧ s.duration > 1000 ∧ s.startTime ≤ s.endTime)
      ∧ (∀ st : TabState, state = some st → now - st.startTime < 1000 →
          (handleTabChange domainOf today state tabUrl tabTitle now).2 = none)
      ∧ (∀ s : Session, (persistActiveSession state now).1 = some s →
          s.startTime ≤ s.endTime) := by
  refine ⟨?_, ?_, ?_⟩
  · intro s hs
    rw [handleTabChange_snd] at hs
    match state with
    | none => simp at hs
    | some st =>
      simp only [] at hs
      split at hs
      · next hgt =>
        cases hs
        refine ⟨rfl, rfl, hgt, ?_⟩
        simp only [closeSession]
        omega
      · simp at hs
  · intro st hst hlt
    subst hst
    rw [handleTabChange_snd]
    have h1000 : ¬ now - st.startTime > 1000 := by omega
    simp [h1000]
  · intro s hs
    unfold persistActiveSession at hs
    match state with
    | none => simp at hs
    | some st =>
      simp only [] at hs
      split at hs
      · next hgt =>
        replace hs : some (closeSession st now) = some s := hs
        cases hs
        simp only [closeSession]
        omega
      · simp at hs

/-- C9 witness: the theorem applied to a concrete open session of 5000 ms
closed at a tab change. -/
theorem C9_witness :
    (closeSession
        { url := "https://example.com/", domain := "example.com", title := ""
          startTime := 0, date := "2024-01-01"
          classification := "unclassified", expiresAt := 2592000000 } 5000).startTime
      ≤ (closeSession
        { url := "https://example.com/", domain := "example.com", title := ""
          startTime := 0, date := "2024-01-01"
          classification := "unclassified", expiresAt := 2592000000 } 5000).endTime :=
  ((C9_session_bounds (fun _ => "example.com") "2024-01-01"
      (some { url := "https://example.com/", domain := "example.com", title := ""
              startTime := 0, date := "2024-01-01"
              classification := "unclassified", expiresAt := 2592000000 })
      "https://example.com/page" "" 5000).1 _ (by decide)).2.2.2

/-- C8 counterexample: the calendar path of the stale-tolerant cache, on a
fetch failure with a 20-minute-old entry under its 5-minute TTL, returns
the cached payload without the stale annotation, refuting the claim that
every such reply is annotated stale = true. -/
theorem C8_counterexample :
    ¬ ((1200000 : Int) - 0 < 300000)
      ∧ (getTodaysEvents (some { data := [{ id := "meeting1", start := 0 }], fetchedAt := 0 })
            1200000 none).1
          = some { payload := [{ id := "meeting1", start := 0 }], stale := false }
      ∧ ((getTodaysEvents (some { data := [{ id := "meeting1", start := 0 }], fetchedAt := 0 })
            1200000 none).1.map FetchReply.stale)
          = some false := by
  refine ⟨by decide, rfl, rfl⟩

/-- C8 amended: for each cache-wrapped handler, a fresh entry is returned
without invoking the fetcher, and a fetch failure with no entry propagates;
on a fetch failure with an entry present the weather (and GitHub) handlers
return the cached payload annotated stale = true, while the calendar
handler returns the cached payload with no stale annotation. -/
theorem C8_amended (α : Type) (c : CacheEntry α) (now : Int) (f : Option α)
    (evc : CacheEntry (List CalEvent)) (evf : Option (List CalEvent)) :
    (now - c.fetchedAt < 900000 →
        getWeatherHandler (some c) now f
          = (some { payload := c.data, stale := false }, false, some c))
      ∧ (¬ now - c.fetchedAt < 900000 →
          getWeatherHandler (some c) now none
            = (some { payload := c.data, stale := true }, true, some c))
      ∧ getWeatherHandler (none : Option (CacheEntry α)) now none = (none, true, none)
      ∧ (¬ now - c.fetchedAt < 300000 →
          getGithubHandler (some c) now none
            = (some { payload := c.data, stale := true }, true, some c))
      ∧ (now - evc.fetchedAt < 300000 →
          getTodaysEvents (some evc) now evf
            = (some { payload := evc.data, stale := false }, false, some evc))
      ∧ (¬ now - evc.fetchedAt < 300000 →
          getTodaysEvents (some evc) now none
            = (some { payload := evc.data, stale := false }, true, some evc))
      ∧ getTodaysEvents none now none = (none, true, none) := by
  refine ⟨?_, ?_, rfl, ?_, ?_, ?_, rfl⟩
  · intro h
    simp [getWeatherHandler, h]
  · intro h
    simp [getWeatherHandler, h]
  · intro h
    simp [getGithubHandler, h]
  · intro h
    simp [getTodaysEvents, h]
  · intro h
    simp [getTodaysEvents, h]

/-- C8 witness: the weather scenario of the spec, a fetch failure with an
entry fetched 20 minutes ago under the 15-minute TTL, returns the cached
payload annotated stale, not an error. -/
theorem C8_witness :
    getWeatherHandler (some { data := "sunny 72F", fetchedAt := 0 }) 1200000 none
      = (some { payload := "sunny 72F", stale := true }, true,
          some { data := "sunny 72F", fetchedAt := 0 }) :=
  (C8_amended String { data := "sunny 72F", fetchedAt := 0 } 1200000 none
      { data := [], fetchedAt := 0 } none).2.1 (by decide)

set_option maxRecDepth 8000 in
/-- C2 counterexample: handed 45 unresolved domains, one batch pass issues
exactly one external call carrying 20 domains, not the claimed ceil(45/20)
= 3 calls; and when the call fails, no domain at all is upserted into the
cache, so the failed domains do not receive the claimed neutral/fallback
records. -/
theorem C2_counterexample :
    (uncachedDomains sessions45 []).length = 45
      ∧ (batchClassifyDomains apiNeutral sessions45 []).calls.length = 1
      ∧ (batchClassifyDomains apiNeutral sessions45 []).calls.map List.length = [20]
      ∧ (batchClassifyDomains apiFail sessions45 []).cache = [] := by
  refine ⟨by decide, by decide, by decide, by decide⟩

theorem batchClassifyDomains_calls (api : ClassifierApi) (sessions : List Session)
    (cache : List DomainClassification) :
    (batchClassifyDomains api sessions cache).calls
      = if (uncachedDomains sessions cache).isEmpty then []
        else [(uncachedDomains sessions cache).take 20] := by
  unfold batchClassifyDomains classifyDomains
  by_cases he : (uncachedDomains sessions cache).isEmpty
  · simp [he]
  · have heq : (uncachedDomains sessions cache).isEmpty = false := by
      simpa using he
    have hne : uncachedDomains sessions cache ≠ [] := by
      simpa [List.isEmpty_iff] using he
    have ht : ((uncachedDomains sessions cache).take 20).isEmpty = false := by
      rcases hu : uncachedDomains sessions cache with _ | ⟨x, xs⟩
      · exact absurd hu hne
      · simp [hu, List.take]
    simp [heq, ht, List.take_take]
    rcases h2 : api (List.take 20 (uncachedDomains sessions cache)) with _ | items <;>
      simp [h2]

theorem batchClassifyDomains_cache_fail (sessions : List Session)
    (cache : List DomainClassification) :
    (batchClassifyDomains apiFail sessions cache).cache = cache := by
  unfold batchClassifyDomains classifyDomains
  by_cases he : (uncachedDomains sessions cache).isEmpty
  · simp [he]
  · have heq : (uncachedDomains sessions cache).isEmpty = false := by
      simpa using he
    by_cases ht : ((uncachedDomains sessions cache).take 20).isEmpty <;>
      simp [heq, ht, apiFail]

theorem classifyDomainHandler_fail (domains : List String)
    (cache : List DomainClassification) :
    classifyDomainHandler apiFail domains cache
      = (domains.filterMap (fun d => cacheGet cache d)
          ++ (if (domains.filter (fun d => (cacheGet cache d).isNone)).isEmpty then []
              else (domains.filter (fun d => (cacheGet cache d).isNone)).map
                (fun d => ({ domain := d, classification := "neutral",
                             source := "fallback" } : DomainClassification))),
         cache) := by
  unfold classifyDomainHandler classifyDomains
  by_cases he : (domains.filter (fun d => (cacheGet cache d).isNone)).isEmpty
  · simp [he]
  · have heq : (domains.filter (fun d => (cacheGet cache d).isNone)).isEmpty = false := by
      simpa using he
    simp [heq, apiFail]

/-- C2 amended: every external call carries at most 20 domains, but one
batch pass issues at most one call (one when any unresolved domain exists),
covering only the first 20 of them; on a failed call batchClassifyDomains
upserts nothing, leaving the failed domains unresolved, while the
CLASSIFY_DOMAIN handler answers uncached domains with neutral records of
source fallback without writing them to the cache. -/
theorem C2_amended (api : ClassifierApi) (sessions : List Session)
    (cache : List DomainClassification) (domains : List String) :
    (∀ b ∈ (batchClassifyDomains api sessions cache).calls, b.length ≤ 20)
      ∧ (batchClassifyDomains api sessions cache).calls.length
          = (if (uncachedDomains sessions cache).isEmpty then 0 else 1)
      ∧ (batchClassifyDomains apiFail sessions cache).cache = cache
      ∧ (classifyDomainHandler apiFail domains cache).2 = cache
      ∧ (∀ d ∈ domains, cacheGet cache d = none →
          ({ domain := d, classification := "neutral", source := "fallback" }
              : DomainClassification)
            ∈ (classifyDomainHandler apiFail domains cache).1) := by
  refine ⟨?_, ?_, ?_, ?_, ?_⟩
  · intro b hb
    rw [batchClassifyDomains_calls] at hb
    split at hb
    · simp at hb
    · simp at hb
      subst hb
      exact List.length_take_le 20 _
  · rw [batchClassifyDomains_calls]
    split <;> simp
  · exact batchClassifyDomains_cache_fail sessions cache
  · rw [classifyDomainHandler_fail]
  · intro d hd hnone
    rw [classifyDomainHandler_fail]
    have hdf : d ∈ domains.filter (fun d => (cacheGet cache d).isNone) := by
      simp [List.mem_filter, hd, hnone]
    have hne : (domains.filter (fun d => (cacheGet cache d).isNone)).isEmpty = false := by
      rcases hf : domains.filter (fun d => (cacheGet cache d).isNone) with _ | ⟨x, xs⟩
      · rw [hf] at hdf
        simp at hdf
      · simp
    simp only [hne, Bool.false_eq_true, if_false]
    apply List.mem_append_right
    exact List.mem_map_of_mem _ hdf

/-- C2 witness: the amended theorem applied to two fresh domains with an
empty cache. -/
theorem C2_witness :
    ({ domain := "z.com", classification := "neutral", source := "fallback" }
        : DomainClassification)
      ∈ (classifyDomainHandler apiFail ["z.com"] []).1 :=
  (C2_amended apiFail [] [] ["z.com"]).2.2.2.2 "z.com" (by decide) (by decide)

/-! ## Scheduler ledger lemmas -/

theorem resetDailyStateIfNeeded_date (d : String) (s : DailyState) :
    (resetDailyStateIfNeeded d s).date = some d := by
  unfold resetDailyStateIfNeeded
  split
  · next h => exact h
  · rfl

theorem resetDailyStateIfNeeded_eq (d : String) (s : DailyState)
    (h : s.date = some d) : resetDailyStateIfNeeded d s = s := by
  unfold resetDailyStateIfNeeded
  simp [h]

theorem checkMorningBriefing_cases (ints : SettingsStore)
    (bools : BoolSettingsStore) (t : TickEnv) (s : DailyState) :
    ((checkMorningBriefing ints bools t s).2 = true
        ∧ (checkMorningBriefing ints bools t s).1
            = { resetDailyStateIfNeeded t.day s with morningBriefingSent := true }
        ∧ (resetDailyStateIfNeeded t.day s).morningBriefingSent = false)
      ∨ ((checkMorningBriefing ints bools t s).2 = false
        ∧ (checkMorningBriefing ints bools t s).1 = resetDailyStateIfNeeded t.day s) := by
  unfold checkMorningBriefing
  dsimp only
  split_ifs <;> simp_all

theorem checkReadyToStart_cases (ints : SettingsStore)
    (bools : BoolSettingsStore) (t : TickEnv) (s : DailyState) :
    ((checkReadyToStart ints bools t s).2 = true
        ∧ (checkReadyToStart ints bools t s).1
            = { resetDailyStateIfNeeded t.day s with readyNudgeSent := true }
        ∧ (resetDailyStateIfNeeded t.day s).readyNudgeSent = false)
      ∨ ((checkReadyToStart ints bools t s).2 = false
        ∧ (checkReadyToStart ints bools t s).1 = resetDailyStateIfNeeded t.day s) := by
  unfold checkReadyToStart
  dsimp only
  rcases t.stats with _ | st <;> dsimp only <;> split_ifs <;> simp_all

theorem celebrateFirstProductiveAction_cases (cache : List DomainClassification)
    (t : TickEnv) (domain : String) (s : DailyState) :
    ((celebrateFirstProductiveAction cache t domain s).2 = true
        ∧ (celebrateFirstProductiveAction cache t domain s).1
            = { resetDailyStateIfNeeded t.day s with firstProductiveCelebrated := true }
        ∧ (resetDailyStateIfNeeded t.day s).firstProductiveCelebrated = false)
      ∨ ((celebrateFirstProductiveAction cache t domain s).2 = false
        ∧ (celebrateFirstProductiveAction cache t domain s).1
            = resetDailyStateIfNeeded t.day s) := by
  unfold celebrateFirstProductiveAction
  dsimp only
  split_ifs <;> simp_all

theorem checkDistractionAlert_cases (ints : SettingsStore)
    (bools : BoolSettingsStore) (t : TickEnv) (s : DailyState) :
    ((checkDistractionAlert ints bools t s).2 = true
        ∧ (checkDistractionAlert ints bools t s).1
            = { resetDailyStateIfNeeded t.day s with lastDistractionAlert := t.now }
        ∧ t.now - (resetDailyStateIfNeeded t.day s).lastDistractionAlert
            ≥ 30 * 60 * 1000)
      ∨ ((checkDistractionAlert ints bools t s).2 = false
        ∧ (checkDistractionAlert ints bools t s).1 = resetDailyStateIfNeeded t.day s) := by
  unfold checkDistractionAlert
  dsimp only
  rcases t.stats with _ | st <;> dsimp only <;> split_ifs <;>
    first
      | (right; exact ⟨rfl, rfl⟩)
      | (left; exact ⟨rfl, rfl, by omega⟩)

theorem checkProgressMilestones_char (ints : SettingsStore) (t : TickEnv)
    (s : DailyState) :
    (checkProgressMilestones ints t s).1
        = { resetDailyStateIfNeeded t.day s with
            oneHourCelebrated := (resetDailyStateIfNeeded t.day s).oneHourCelebrated
              || (checkProgressMilestones ints t s).2.1
            goalCelebrated := (resetDailyStateIfNeeded t.day s).goalCelebrated
              || (checkProgressMilestones ints t s).2.2 }
      ∧ ((checkProgressMilestones ints t s).2.1 = true →
          (resetDailyStateIfNeeded t.day s).oneHourCelebrated = false)
      ∧ ((checkProgressMilestones ints t s).2.2 = true →
          (resetDailyStateIfNeeded t.day s).goalCelebrated = false) := by
  unfold checkProgressMilestones
  dsimp only
  rcases t.stats with _ | st <;> dsimp only <;> (try split_ifs) <;> simp_all

theorem checkEndOfDay_cases (ints : SettingsStore) (bools : BoolSettingsStore)
    (t : TickEnv) (markers : List String) :
    ((checkEndOfDay ints bools t markers).2 = true
        ∧ markers.contains ("eod_" ++ t.day) = false
        ∧ (checkEndOfDay ints bools t markers).1 = markers ++ ["eod_" ++ t.day])
      ∨ ((checkEndOfDay ints bools t markers).2 = false
        ∧ ((checkEndOfDay ints bools t markers).1 = markers
            ∨ (checkEndOfDay ints bools t markers).1 = markers ++ ["eod_" ++ t.day])) := by
  unfold checkEndOfDay
  dsimp only
  rcases t.stats with _ | st <;> dsimp only <;> (try split_ifs) <;> simp_all

theorem checkEndOfDay_already (ints : SettingsStore) (bools : BoolSettingsStore)
    (t : TickEnv) (markers : List String)
    (h : markers.contains ("eod_" ++ t.day) = true) :
    checkEndOfDay ints bools t markers = (markers, false) := by
  unfold checkEndOfDay
  dsimp only
  split_ifs <;> simp_all

theorem heartbeat_state_char (ints : SettingsStore) (bools : BoolSettingsStore)
    (env : TickEnv) (s : DailyState) :
    (checkDistractionAlert ints bools env (checkProgressMilestones ints env s).1).1.date
        = some env.day
      ∧ (checkDistractionAlert ints bools env (checkProgressMilestones ints env s).1).1.morningBriefingSent
        = (resetDailyStateIfNeeded env.day s).morningBriefingSent
      ∧ (checkDistractionAlert ints bools env (checkProgressMilestones ints env s).1).1.readyNudgeSent
        = (resetDailyStateIfNeeded env.day s).readyNudgeSent
      ∧ (checkDistractionAlert ints bools env (checkProgressMilestones ints env s).1).1.firstProductiveCelebrated
        = (resetDailyStateIfNeeded env.day s).firstProductiveCelebrated
      ∧ (checkDistractionAlert ints bools env (checkProgressMilestones ints env s).1).1.oneHourCelebrated
        = ((resetDailyStateIfNeeded env.day s).oneHourCelebrated
            || (checkProgressMilestones ints env s).2.1)
      ∧ (checkDistractionAlert ints bools env (checkProgressMilestones ints env s).1).1.goalCelebrated
        = ((resetDailyStateIfNeeded env.day s).goalCelebrated
            || (checkProgressMilestones ints env s).2.2) := by
  obtain ⟨hm1, _, _⟩ := checkProgressMilestones_char ints env s
  have hr1date : (checkProgressMilestones ints env s).1.date = some env.day := by
    rw [hm1]
    exact resetDailyStateIfNeeded_date env.day s
  have hreset2 : resetDailyStateIfNeeded env.day (checkProgressMilestones ints env s).1
      = (checkProgressMilestones ints env s).1 :=
    resetDailyStateIfNeeded_eq env.day _ hr1date
  rcases checkDistractionAlert_cases ints bools env (checkProgressMilestones ints env s).1
      with ⟨_, hds, _⟩ | ⟨_, hds⟩ <;>
    rw [hds, hreset2] <;> rw [hm1] <;>
      exact ⟨resetDailyStateIfNeeded_date env.day s, rfl, rfl, rfl, rfl, rfl⟩

theorem runSched_countP_zero (ints : SettingsStore) (bools : BoolSettingsStore)
    (cache : List DomainClassification) (d : String) (sel : Fired → Bool)
    (flag : DailyState × List String → Bool)
    (h2 : ∀ (t : Tick) (st : DailyState × List String),
      t.env.day = d → flag st = true →
      sel (schedStep ints bools cache t st).2 = false
        ∧ flag (schedStep ints bools cache t st).1 = true) :
    ∀ (ticks : List Tick) (st : DailyState × List String),
      (∀ t ∈ ticks, t.env.day = d) → flag st = true →
      ((runSched ints bools cache ticks st).2.countP sel) = 0 := by
  intro ticks
  induction ticks with
  | nil => intro st _ _; simp [runSched]
  | cons t ts ih =>
    intro st hdays hflag
    have ht := hdays t (by simp)
    have hts : ∀ x ∈ ts, x.env.day = d := fun x hx => hdays x (by simp [hx])
    have h := h2 t st ht hflag
    show (List.countP sel ((schedStep ints bools cache t st).2
      :: (runSched ints bools cache ts (schedStep ints bools cache t st).1).2)) = 0
    rw [List.countP_cons]
    rw [ih (schedStep ints bools cache t st).1 hts h.2]
    simp [h.1]

theorem runSched_countP_le_one (ints : SettingsStore) (bools : BoolSettingsStore)
    (cache : List DomainClassification) (d : String) (sel : Fired → Bool)
    (flag : DailyState × List String → Bool)
    (h1 : ∀ (t : Tick) (st : DailyState × List String),
      t.env.day = d → sel (schedStep ints bools cache t st).2 = true →
      flag (schedStep ints bools cache t st).1 = true)
    (h2 : ∀ (t : Tick) (st : DailyState × List String),
      t.env.day = d → flag st = true →
      sel (schedStep ints bools cache t st).2 = false
        ∧ flag (schedStep ints bools cache t st).1 = true) :
    ∀ (ticks : List Tick) (st : DailyState × List String),
      (∀ t ∈ ticks, t.env.day = d) →
      ((runSched ints bools cache ticks st).2.countP sel) ≤ 1 := by
  intro ticks
  induction ticks with
  | nil => intro st _; simp [runSched]
  | cons t ts ih =>
    intro st hdays
    have ht := hdays t (by simp)
    have hts : ∀ x ∈ ts, x.env.day = d := fun x hx => hdays x (by simp [hx])
    show (List.countP sel ((schedStep ints bools cache t st).2
      :: (runSched ints bools cache ts (schedStep ints bools cache t st).1).2)) ≤ 1
    rw [List.countP_cons]
    by_cases hf : sel (schedStep ints bools cache t st).2 = true
    · have hflag := h1 t st ht hf
      rw [runSched_countP_zero ints bools cache d sel flag h2 ts
        (schedStep ints bools cache t st).1 hts hflag]
      simp [hf]
    · have hf0 : sel (schedStep ints bools cache t st).2 = false := by
        simpa using hf
      have := ih (schedStep ints bools cache t st).1 hts
      simp [hf0]
      omega

theorem schedStep_preserve (ints : SettingsStore) (bools : BoolSettingsStore)
    (cache : List DomainClassification) (t : Tick) (st : DailyState × List String)
    (hdate : st.1.date = some t.env.day) :
    (schedStep ints bools cache t st).1.1.date = some t.env.day
      ∧ (schedStep ints bools cache t st).1.1.morningBriefingSent
        = (st.1.morningBriefingSent || (schedStep ints bools cache t st).2.morning)
      ∧ ((schedStep ints bools cache t st).2.morning = true →
          st.1.morningBriefingSent = false)
      ∧ (schedStep ints bools cache t st).1.1.readyNudgeSent
        = (st.1.readyNudgeSent || (schedStep ints bools cache t st).2.ready)
      ∧ ((schedStep ints bools cache t st).2.ready = true →
          st.1.readyNudgeSent = false)
      ∧ (schedStep ints bools cache t st).1.1.firstProductiveCelebrated
        = (st.1.firstProductiveCelebrated || (schedStep ints bools cache t st).2.firstProd)
      ∧ ((schedStep ints bools cache t st).2.firstProd = true →
          st.1.firstProductiveCelebrated = false)
      ∧ (schedStep ints bools cache t st).1.1.oneHourCelebrated
        = (st.1.oneHourCelebrated || (schedStep ints bools cache t st).2.oneHour)
      ∧ ((schedStep ints bools cache t st).2.oneHour = true →
          st.1.oneHourCelebrated = false)
      ∧ (schedStep ints bools cache t st).1.1.goalCelebrated
        = (st.1.goalCelebrated || (schedStep ints bools cache t st).2.goal)
      ∧ ((schedStep ints bools cache t st).2.goal = true →
          st.1.goalCelebrated = false) := by
  obtain ⟨dp, env⟩ := t
  simp only [] at hdate
  have hreset : resetDailyStateIfNeeded env.day st.1 = st.1 :=
    resetDailyStateIfNeeded_eq env.day st.1 hdate
  cases dp with
  | heartbeat =>
    obtain ⟨hd, hm, hr, hp, ho, hg⟩ := heartbeat_state_char ints bools env st.1
    obtain ⟨_, ho1, hg1⟩ := checkProgressMilestones_char ints env st.1
    rw [hreset] at hm hr hp ho hg ho1 hg1
    simp only [schedStep]
    exact ⟨hd, by simp [hm], by simp, by simp [hr], by simp, by simp [hp], by simp,
      ho, ho1, hg, hg1⟩
  | morningBriefing =>
    rcases checkMorningBriefing_cases ints bools env st.1 with ⟨hb, hst, hs1⟩ | ⟨hb, hst⟩ <;>
      rw [hreset] at hst <;> simp_all [schedStep, hdate]
  | readyCheck =>
    rcases checkReadyToStart_cases ints bools env st.1 with ⟨hb, hst, hs1⟩ | ⟨hb, hst⟩ <;>
      rw [hreset] at hst <;> simp_all [schedStep, hdate]
  | endOfDay =>
    simp [schedStep, hdate]
  | tabEvent domain =>
    rcases celebrateFirstProductiveAction_cases cache env domain st.1
        with ⟨hb, hst, hs1⟩ | ⟨hb, hst⟩ <;>
      rw [hreset] at hst <;> simp_all [schedStep, hdate]

theorem schedStep_fired (ints : SettingsStore) (bools : BoolSettingsStore)
    (cache : List DomainClassification) (t : Tick) (st : DailyState × List String) :
    ((schedStep ints bools cache t st).2.morning = true →
        (schedStep ints bools cache t st).1.1.morningBriefingSent = true
          ∧ (schedStep ints bools cache t st).1.1.date = some t.env.day)
      ∧ ((schedStep ints bools cache t st).2.ready = true →
          (schedStep ints bools cache t st).1.1.readyNudgeSent = true
            ∧ (schedStep ints bools cache t st).1.1.date = some t.env.day)
      ∧ ((schedStep ints bools cache t st).2.firstProd = true →
          (schedStep ints bools cache t st).1.1.firstProductiveCelebrated = true
            ∧ (schedStep ints bools cache t st).1.1.date = some t.env.day)
      ∧ ((schedStep ints bools cache t st).2.oneHour = true →
          (schedStep ints bools cache t st).1.1.oneHourCelebrated = true
            ∧ (schedStep ints bools cache t st).1.1.date = some t.env.day)
      ∧ ((schedStep ints bools cache t st).2.goal = true →
          (schedStep ints bools cache t st).1.1.goalCelebrated = true
            ∧ (schedStep ints bools cache t st).1.1.date = some t.env.day)
      ∧ ((schedStep ints bools cache t st).2.eod = true →
          (schedStep ints bools cache t st).1.2.contains ("eod_" ++ t.env.day) = true) := by
  obtain ⟨dp, env⟩ := t
  cases dp with
  | heartbeat =>
    obtain ⟨hd, hm, hr, hp, ho, hg⟩ := heartbeat_state_char ints bools env st.1
    simp only [schedStep]
    refine ⟨?_, ?_, ?_, ?_, ?_, ?_⟩ <;> intro hf <;> simp_all [ho, hg, hd]
  | morningBriefing =>
    rcases checkMorningBriefing_cases ints bools env st.1 with ⟨hb, hst, hs1⟩ | ⟨hb, hst⟩ <;>
      simp_all [schedStep, resetDailyStateIfNeeded_date]
  | readyCheck =>
    rcases checkReadyToStart_cases ints bools env st.1 with ⟨hb, hst, hs1⟩ | ⟨hb, hst⟩ <;>
      simp_all [schedStep, resetDailyStateIfNeeded_date]
  | endOfDay =>
    rcases checkEndOfDay_cases ints bools env st.2 with ⟨hb, hc, hst⟩ | ⟨hb, hst⟩ <;>
      simp_all [schedStep]
  | tabEvent domain =>
    rcases celebrateFirstProductiveAction_cases cache env domain st.1
        with ⟨hb, hst, hs1⟩ | ⟨hb, hst⟩ <;>
      simp_all [schedStep, resetDailyStateIfNeeded_date]

theorem schedStep_eod_blocked (ints : SettingsStore) (bools : BoolSettingsStore)
    (cache : List DomainClassification) (t : Tick) (st : DailyState × List String)
    (h : st.2.contains ("eod_" ++ t.env.day) = true) :
    (schedStep ints bools cache t st).2.eod = false
      ∧ (schedStep ints bools cache t st).1.2 = st.2 := by
  obtain ⟨dp, env⟩ := t
  simp only [] at h
  cases dp with
  | endOfDay =>
    have := checkEndOfDay_already ints bools env st.2 h
    simp [schedStep, this]
  | heartbeat => simp [schedStep]
  | morningBriefing => simp [schedStep]
  | readyCheck => simp [schedStep]
  | tabEvent domain => simp [schedStep]

/-- C5: over a run of dispatcher activations that all observe the same
wall-clock day (the span between two consecutive day-rollovers), each
once-per-day rule (morning briefing, ready-to-start nudge, first-productive
celebration, one-hour milestone, daily-goal milestone, end-of-day summary)
fires at most once, whatever the number and kind of ticks; and on a
rollover, detected by comparing the stored day with the wall-clock day, the
whole per-rule fired and cooldown ledger is replaced by the cleared
state. -/
theorem C5_daily_once (ints : SettingsStore) (bools : BoolSettingsStore)
    (cache : List DomainClassification) (d : String) (ticks : List Tick)
    (s0 : DailyState) (m0 : List String)
    (hdays : ∀ t ∈ ticks, t.env.day = d) :
    ((runSched ints bools cache ticks (s0, m0)).2.countP (fun f => f.morning) ≤ 1
        ∧ (runSched ints bools cache ticks (s0, m0)).2.countP (fun f => f.ready) ≤ 1
        ∧ (runSched ints bools cache ticks (s0, m0)).2.countP (fun f => f.firstProd) ≤ 1
        ∧ (runSched ints bools cache ticks (s0, m0)).2.countP (fun f => f.oneHour) ≤ 1
        ∧ (runSched ints bools cache ticks (s0, m0)).2.countP (fun f => f.goal) ≤ 1
        ∧ (runSched ints bools cache ticks (s0, m0)).2.countP (fun f => f.eod) ≤ 1)
      ∧ (∀ s : DailyState, s.date ≠ some d →
          resetDailyStateIfNeeded d s = freshDailyState d) := by
  constructor
  · refine ⟨?_, ?_, ?_, ?_, ?_, ?_⟩
    · refine runSched_countP_le_one ints bools cache d _
        (fun st => st.1.morningBriefingSent && decide (st.1.date = some d)) ?_ ?_
        ticks (s0, m0) hdays
      · intro t st ht hf
        obtain ⟨hm, hdd⟩ := (schedStep_fired ints bools cache t st).1 hf
        rw [Bool.and_eq_true, decide_eq_true_iff]
        exact ⟨hm, by rw [hdd, ht]⟩
      · intro t st ht hflag
        rw [Bool.and_eq_true, decide_eq_true_iff] at hflag
        obtain ⟨hsent, hdd⟩ := hflag
        have hdate : st.1.date = some t.env.day := by rw [ht]; exact hdd
        obtain ⟨pd, pm, pmi, _⟩ := schedStep_preserve ints bools cache t st hdate
        have hfired : (schedStep ints bools cache t st).2.morning = false := by
          by_contra hc
          have h0 := pmi (by simpa using hc)
          rw [h0] at hsent
          simp at hsent
        refine ⟨hfired, ?_⟩
        rw [Bool.and_eq_true, decide_eq_true_iff]
        refine ⟨by rw [pm, hfired, hsent]; rfl, by rw [pd, ht]⟩
    · refine runSched_countP_le_one ints bools cache d _
        (fun st => st.1.readyNudgeSent && decide (st.1.date = some d)) ?_ ?_
        ticks (s0, m0) hdays
      · intro t st ht hf
        obtain ⟨hm, hdd⟩ := (schedStep_fired ints bools cache t st).2.1 hf
        rw [Bool.and_eq_true, decide_eq_true_iff]
        exact ⟨hm, by rw [hdd, ht]⟩
      · intro t st ht hflag
        rw [Bool.and_eq_true, decide_eq_true_iff] at hflag
        obtain ⟨hsent, hdd⟩ := hflag
        have hdate : st.1.date = some t.env.day := by rw [ht]; exact hdd
        obtain ⟨pd, _, _, pm, pmi, _⟩ := schedStep_preserve ints bools cache t st hdate
        have hfired : (schedStep ints bools cache t st).2.ready = false := by
          by_contra hc
          have h0 := pmi (by simpa using hc)
          rw [h0] at hsent
          simp at hsent
        refine ⟨hfired, ?_⟩
        rw [Bool.and_eq_true, decide_eq_true_iff]
        refine ⟨by rw [pm, hfired, hsent]; rfl, by rw [pd, ht]⟩
    · refine runSched_countP_le_one ints bools cache d _
        (fun st => st.1.firstProductiveCelebrated && decide (st.1.date = some d)) ?_ ?_
        ticks (s0, m0) hdays
      · intro t st ht hf
        obtain ⟨hm, hdd⟩ := (schedStep_fired ints bools cache t st).2.2.1 hf
        rw [Bool.and_eq_true, decide_eq_true_iff]
        exact ⟨hm, by rw [hdd, ht]⟩
      · intro t st ht hflag
        rw [Bool.and_eq_true, decide_eq_true_iff] at hflag
        obtain ⟨hsent, hdd⟩ := hflag
        have hdate : st.1.date = some t.env.day := by rw [ht]; exact hdd
        obtain ⟨pd, _, _, _, _, pm, pmi, _⟩ :=
          schedStep_preserve ints bools cache t st hdate
        have hfired : (schedStep ints bools cache t st).2.firstProd = false := by
          by_contra hc
          have h0 := pmi (by simpa using hc)
          rw [h0] at hsent
          simp at hsent
        refine ⟨hfired, ?_⟩
        rw [Bool.and_eq_true, decide_eq_true_iff]
        refine ⟨by rw [pm, hfired, hsent]; rfl, by rw [pd, ht]⟩
    · refine runSched_countP_le_one ints bools cache d _
        (fun st => st.1.oneHourCelebrated && decide (st.1.date = some d)) ?_ ?_
        ticks (s0, m0) hdays
      · intro t st ht hf
        obtain ⟨hm, hdd⟩ := (schedStep_fired ints bools cache t st).2.2.2.1 hf
        rw [Bool.and_eq_true, decide_eq_true_iff]
        exact ⟨hm, by rw [hdd, ht]⟩
      · intro t st ht hflag
        rw [Bool.and_eq_true, decide_eq_true_iff] at hflag
        obtain ⟨hsent, hdd⟩ := hflag
        have hdate : st.1.date = some t.env.day := by rw [ht]; exact hdd
        obtain ⟨pd, _, _, _, _, _, _, pm, pmi, _⟩ :=
          schedStep_preserve ints bools cache t st hdate
        have hfired : (schedStep ints bools cache t st).2.oneHour = false := by
          by_contra hc
          have h0 := pmi (by simpa using hc)
          rw [h0] at hsent
          simp at hsent
        refine ⟨hfired, ?_⟩
        rw [Bool.and_eq_true, decide_eq_true_iff]
        refine ⟨by rw [pm, hfired, hsent]; rfl, by rw [pd, ht]⟩
    · refine runSched_countP_le_one ints bools cache d _
        (fun st => st.1.goalCelebrated && decide (st.1.date = some d)) ?_ ?_
        ticks (s0, m0) hdays
      · intro t st ht hf
        obtain ⟨hm, hdd⟩ := (schedStep_fired ints bools cache t st).2.2.2.2.1 hf
        rw [Bool.and_eq_true, decide_eq_true_iff]
        exact ⟨hm, by rw [hdd, ht]⟩
      · intro t st ht hflag
        rw [Bool.and_eq_true, decide_eq_true_iff] at hflag
        obtain ⟨hsent, hdd⟩ := hflag
        have hdate : st.1.date = some t.env.day := by rw [ht]; exact hdd
        obtain ⟨pd, _, _, _, _, _, _, _, _, pm, pmi⟩ :=
          schedStep_preserve ints bools cache t st hdate
        have hfired : (schedStep ints bools cache t st).2.goal = false := by
          by_contra hc
          have h0 := pmi (by simpa using hc)
          rw [h0] at hsent
          simp at hsent
        refine ⟨hfired, ?_⟩
        rw [Bool.and_eq_true, decide_eq_true_iff]
        refine ⟨by rw [pm, hfired, hsent]; rfl, by rw [pd, ht]⟩
    · refine runSched_countP_le_one ints bools cache d _
        (fun st => st.2.contains ("eod_" ++ d)) ?_ ?_ ticks (s0, m0) hdays
      · intro t st ht hf
        have := (schedStep_fired ints bools cache t st).2.2.2.2.2 hf
        rw [ht] at this
        exact this
      · intro t st ht hflag
        have hflag2 : st.2.contains ("eod_" ++ t.env.day) = true := by
          rw [ht]; exact hflag
        obtain ⟨hf0, hm0⟩ := schedStep_eod_blocked ints bools cache t st hflag2
        refine ⟨hf0, ?_⟩
        show (schedStep ints bools cache t st).1.2.contains ("eod_" ++ d) = true
        rw [hm0]
        exact hflag
  · intro s hs
    unfold resetDailyStateIfNeeded
    simp [hs]

/-- C5 witness: the daily-once bound applied to the concrete day above,
started from a ledger still carrying the previous day. -/
theorem C5_witness :
    (runSched [] [] [] ticksC5 (freshDailyState "2024-03-04", [])).2.countP
        (fun f => f.morning) ≤ 1
      ∧ (runSched [] [] [] ticksC5 (freshDailyState "2024-03-04", [])).2.countP
        (fun f => f.ready) ≤ 1
      ∧ (runSched [] [] [] ticksC5 (freshDailyState "2024-03-04", [])).2.countP
        (fun f => f.firstProd) ≤ 1
      ∧ (runSched [] [] [] ticksC5 (freshDailyState "2024-03-04", [])).2.countP
        (fun f => f.oneHour) ≤ 1
      ∧ (runSched [] [] [] ticksC5 (freshDailyState "2024-03-04", [])).2.countP
        (fun f => f.goal) ≤ 1
      ∧ (runSched [] [] [] ticksC5 (freshDailyState "2024-03-04", [])).2.countP
        (fun f => f.eod) ≤ 1 :=
  (C5_daily_once [] [] [] "2024-03-05" ticksC5 (freshDailyState "2024-03-04") []
    (by decide)).1

theorem distractionFireTimes_chain_aux (ints : SettingsStore)
    (bools : BoolSettingsStore) (d : String) :
    ∀ (ticks : List TickEnv) (s : DailyState), s.date = some d →
      (∀ t ∈ ticks, t.day = d) →
      List.Chain' (fun a b => b - a ≥ 30 * 60 * 1000)
          (distractionFireTimes ints bools ticks s)
        ∧ (∀ x, (distractionFireTimes ints bools ticks s).head? = some x →
            x - s.lastDistractionAlert ≥ 30 * 60 * 1000) := by
  intro ticks
  induction ticks with
  | nil =>
    intro s _ _
    exact ⟨List.chain'_nil, by intro x hx; simp [distractionFireTimes] at hx⟩
  | cons t ts ih =>
    intro s hdate hdays
    have ht : t.day = d := hdays t (by simp)
    have hts : ∀ x ∈ ts, x.day = d := fun x hx => hdays x (by simp [hx])
    have hreset : resetDailyStateIfNeeded t.day s = s := by
      apply resetDailyStateIfNeeded_eq
      rw [ht]
      exact hdate
    rcases checkDistractionAlert_cases ints bools t s with ⟨hb, hst, hge⟩ | ⟨hb, hst⟩
    · have hs2date : (checkDistractionAlert ints bools t s).1.date = some d := by
        rw [hst, hreset]
        exact hdate
      have hs2last :
          (checkDistractionAlert ints bools t s).1.lastDistractionAlert = t.now := by
        rw [hst]
      obtain ⟨ihc, ihh⟩ := ih (checkDistractionAlert ints bools t s).1 hs2date hts
      have hunf : distractionFireTimes ints bools (t :: ts) s
          = t.now :: distractionFireTimes ints bools ts
              (checkDistractionAlert ints bools t s).1 := by
        simp [distractionFireTimes, hb]
      rw [hreset] at hge
      constructor
      · rw [hunf]
        refine List.chain'_cons'.mpr ⟨?_, ihc⟩
        intro b hbmem
        have := ihh b hbmem
        rw [hs2last] at this
        exact this
      · intro x hx
        rw [hunf] at hx
        simp only [List.head?_cons, Option.some.injEq] at hx
        rw [← hx]
        exact hge
    · have hs1 : (checkDistractionAlert ints bools t s).1 = s := by rw [hst, hreset]
      have hunf : distractionFireTimes ints bools (t :: ts) s
          = distractionFireTimes ints bools ts s := by
        simp [distractionFireTimes, hb, hs1]
      obtain ⟨ihc, ihh⟩ := ih s hdate hts
      rw [hunf]
      exact ⟨ihc, ihh⟩

/-- C6 amended: within one calendar day (no rollover between the ticks),
consecutive firings of the distraction alert are at least 30 minutes
apart; the in-memory cooldown anchor is cleared by the day rollover, so
the guarantee does not span a rollover. -/
theorem C6_amended (ints : SettingsStore) (bools : BoolSettingsStore)
    (d : String) (ticks : List TickEnv) (s : DailyState)
    (hdays : ∀ t ∈ ticks, t.day = d) :
    List.Chain' (fun a b => b - a ≥ 30 * 60 * 1000)
      (distractionFireTimes ints bools ticks s) := by
  cases ticks with
  | nil => exact List.chain'_nil
  | cons t ts =>
    have ht : t.day = d := hdays t (by simp)
    have hts : ∀ x ∈ ts, x.day = d := fun x hx => hdays x (by simp [hx])
    have hdate : (checkDistractionAlert ints bools t s).1.date = some d := by
      rcases checkDistractionAlert_cases ints bools t s with ⟨_, hst, _⟩ | ⟨_, hst⟩ <;>
        rw [hst] <;> rw [← ht] <;> exact resetDailyStateIfNeeded_date t.day s
    obtain ⟨ihc, ihh⟩ :=
      distractionFireTimes_chain_aux ints bools d ts
        (checkDistractionAlert ints bools t s).1 hdate hts
    rcases hb : (checkDistractionAlert ints bools t s).2 with _ | _
    · have hunf : distractionFireTimes ints bools (t :: ts) s
          = distractionFireTimes ints bools ts
              (checkDistractionAlert ints bools t s).1 := by
        simp [distractionFireTimes, hb]
      rw [hunf]
      exact ihc
    · have hunf : distractionFireTimes ints bools (t :: ts) s
          = t.now :: distractionFireTimes ints bools ts
              (checkDistractionAlert ints bools t s).1 := by
        simp [distractionFireTimes, hb]
      have hlast :
          (checkDistractionAlert ints bools t s).1.lastDistractionAlert = t.now := by
        rcases checkDistractionAlert_cases ints bools t s with ⟨_, hst, _⟩ | ⟨hb2, _⟩
        · rw [hst]
        · rw [hb2] at hb
          cases hb
      rw [hunf]
      refine List.chain'_cons'.mpr ⟨?_, ihc⟩
      intro b hbmem
      have := ihh b hbmem
      rw [hlast] at this
      exact this

/-- C6 counterexample: with a 5-minute threshold configured, a tick at
23:59 fires the distraction alert, the rollover clears the cooldown
anchor, and a tick 25 minutes later on the next day fires again: two
firings 1,500,000 ms apart, inside the 30-minute window, with the
threshold met on both ticks. -/
theorem C6_counterexample :
    distractionFireTimes [("distractionAlertMinutes", 5)] []
        [⟨"2024-01-01", 23, 59, 86340000, some statsD1⟩,
         ⟨"2024-01-02", 0, 24, 87840000, some statsD2⟩]
        (freshDailyState "2024-01-01")
      = [86340000, 87840000]
      ∧ (87840000 : Int) - 86340000 < 30 * 60 * 1000 := by
  refine ⟨by decide, by decide⟩

/-- C6 witness: the amended cooldown theorem applied to two same-day ticks
half a day apart. -/
theorem C6_witness :
    List.Chain' (fun a b => b - a ≥ 30 * 60 * 1000)
      (distractionFireTimes [("distractionAlertMinutes", 5)] []
        [⟨"2024-01-01", 10, 0, 36000000, some statsD1⟩,
         ⟨"2024-01-01", 23, 59, 86340000, some statsD1⟩]
        (freshDailyState "2024-01-01")) :=
  C6_amended [("distractionAlertMinutes", 5)] [] "2024-01-01"
    [⟨"2024-01-01", 10, 0, 36000000, some statsD1⟩,
     ⟨"2024-01-01", 23, 59, 86340000, some statsD1⟩]
    (freshDailyState "2024-01-01") (by decide)

theorem meetingLoop_fired_window (W buf now : Int) :
    ∀ (events : List CalEvent) (nm : List String) (id : String),
      id ∈ (meetingLoop W buf now events nm).2 →
      ∃ e, e ∈ events ∧ e.id = id
        ∧ W - buf < e.start - now ∧ e.start - now ≤ W + 2 * buf := by
  intro events
  induction events with
  | nil => intro nm id h; simp [meetingLoop] at h
  | cons e rest ih =>
    intro nm id h
    by_cases hc : nm.contains e.id
    · have hu : meetingLoop W buf now (e :: rest) nm = meetingLoop W buf now rest nm := by
        conv_lhs => rw [meetingLoop]
        rw [if_pos hc]
      rw [hu] at h
      obtain ⟨e2, he2, hrest⟩ := ih nm id h
      exact ⟨e2, List.mem_cons_of_mem _ he2, hrest⟩
    · by_cases hw : W - buf < e.start - now ∧ e.start - now ≤ W + 2 * buf
      · have hu : meetingLoop W buf now (e :: rest) nm
            = ((meetingLoop W buf now rest (nm ++ [e.id])).1,
               e.id :: (meetingLoop W buf now rest (nm ++ [e.id])).2) := by
          conv_lhs => rw [meetingLoop]
          rw [if_neg hc, if_pos hw]
        rw [hu] at h
        simp only [List.mem_cons] at h
        rcases h with h | h
        · exact ⟨e, by simp, h.symm, hw.1, hw.2⟩
        · obtain ⟨e2, he2, hrest⟩ := ih (nm ++ [e.id]) id h
          exact ⟨e2, List.mem_cons_of_mem _ he2, hrest⟩
      · have hu : meetingLoop W buf now (e :: rest) nm = meetingLoop W buf now rest nm := by
          conv_lhs => rw [meetingLoop]
          rw [if_neg hc, if_neg hw]
        rw [hu] at h
        obtain ⟨e2, he2, hrest⟩ := ih nm id h
        exact ⟨e2, List.mem_cons_of_mem _ he2, hrest⟩

theorem checkMeetingAwareness_unfold (ints : SettingsStore)
    (bools : BoolSettingsStore) (now : Int) (events : List CalEvent)
    (nm : List String)
    (hen : ¬ getSettingBool bools "enableMeetingAwareness" = some false)
    (hne : events ≠ []) :
    checkMeetingAwareness ints bools now events nm
      = (pruneNotified now events
          (meetingLoop (jsOr (getSetting ints "meetingWarningMinutes") 5 * 60000)
            60000 now events nm).1,
         (meetingLoop (jsOr (getSetting ints "meetingWarningMinutes") 5 * 60000)
            60000 now events nm).2) := by
  unfold checkMeetingAwareness
  rw [if_neg hen, if_neg (by simp [List.isEmpty_iff, hne])]
  rfl

theorem meetingLoop_single_fire (W now : Int) (e : CalEvent) (nm : List String)
    (hmem : nm.contains e.id = false)
    (h1 : W - 60000 < e.start - now) (h2 : e.start - now ≤ W + 2 * 60000) :
    meetingLoop W 60000 now [e] nm = (nm ++ [e.id], [e.id]) := by
  conv_lhs => rw [meetingLoop]
  rw [if_neg (by rw [hmem]; simp), if_pos ⟨h1, h2⟩]
  rw [meetingLoop]

theorem meetingLoop_single_skip (W buf now : Int) (e : CalEvent)
    (nm : List String) (hmem : nm.contains e.id = true) :
    meetingLoop W buf now [e] nm = (nm, []) := by
  conv_lhs => rw [meetingLoop]
  rw [if_pos hmem]
  rw [meetingLoop]

theorem prune_keep (now : Int) (e : CalEvent) (l : List String)
    (h : ¬ now - e.start > 3600000) : pruneNotified now [e] l = l := by
  unfold pruneNotified
  apply List.filter_eq_self.mpr
  intro x hx
  by_cases hid : e.id = x <;> simp [List.find?, hid, h]

theorem prune_drop_not_mem (now : Int) (e : CalEvent)
    (h : now - e.start > 3600000) :
    ∀ l : List String, (pruneNotified now [e] l).contains e.id = false := by
  intro l
  have hnm : e.id ∉ pruneNotified now [e] l := by
    unfold pruneNotified
    intro hmem
    have hpred := List.of_mem_filter hmem
    simp [List.find?, h] at hpred
  rcases hb : (pruneNotified now [e] l).contains e.id with _ | _
  · rfl
  · exact absurd (List.elem_iff.mp hb) hnm

/-- C7: a meeting warning fires only when the time until the meeting start
lies within [configured lead − 1 minute, configured lead + 2 minutes]; a
meeting starting exactly the configured lead away receives a single
warning, a tick one minute later does not re-warn it, and once the clock
passes one hour after the meeting start its warned-set entry is pruned, no
longer blocking a later re-warning. -/
theorem C7_meeting_awareness :
    (∀ (ints : SettingsStore) (bools : BoolSettingsStore) (now : Int)
        (events : List CalEvent) (nm : List String) (id : String),
        id ∈ (checkMeetingAwareness ints bools now events nm).2 →
        ∃ e, e ∈ events ∧ e.id = id
          ∧ jsOr (getSetting ints "meetingWarningMinutes") 5 * 60000 - 60000
              ≤ e.start - now
          ∧ e.start - now
              ≤ jsOr (getSetting ints "meetingWarningMinutes") 5 * 60000 + 120000)
      ∧ (∀ (ints : SettingsStore) (bools : BoolSettingsStore) (e : CalEvent)
          (nm0 : List String),
          ¬ getSettingBool bools "enableMeetingAwareness" = some false →
          nm0.contains e.id = false →
          0 ≤ jsOr (getSetting ints "meetingWarningMinutes") 5 →
          (checkMeetingAwareness ints bools
              (e.start - jsOr (getSetting ints "meetingWarningMinutes") 5 * 60000)
              [e] nm0).2
            = [e.id]
          ∧ (checkMeetingAwareness ints bools
              (e.start - jsOr (getSetting ints "meetingWarningMinutes") 5 * 60000
                + 60000) [e]
              (checkMeetingAwareness ints bools
                (e.start - jsOr (getSetting ints "meetingWarningMinutes") 5 * 60000)
                [e] nm0).1).2
            = []
          ∧ ∀ now3 : Int, now3 - e.start > 3600000 →
              ((checkMeetingAwareness ints bools now3 [e]
                (checkMeetingAwareness ints bools
                  (e.start - jsOr (getSetting ints "meetingWarningMinutes") 5 * 60000)
                  [e] nm0).1).1.contains e.id)
                = false) := by
  constructor
  · intro ints bools now events nm id h
    unfold checkMeetingAwareness at h
    split at h
    · simp at h
    · split at h
      · simp at h
      · dsimp only at h
        obtain ⟨e, he, hid, h1, h2⟩ :=
          meetingLoop_fired_window
            (jsOr (getSetting ints "meetingWarningMinutes") 5 * 60000) 60000 now
            events nm id h
        exact ⟨e, he, hid, by omega, by omega⟩
  · intro ints bools e nm0 hen hmem hwm
    have hW : (0:Int) ≤ jsOr (getSetting ints "meetingWarningMinutes") 5 * 60000 := by
      omega
    have hfire := meetingLoop_single_fire
      (jsOr (getSetting ints "meetingWarningMinutes") 5 * 60000)
      (e.start - jsOr (getSetting ints "meetingWarningMinutes") 5 * 60000) e nm0
      hmem (by omega) (by omega)
    have hr1 : (checkMeetingAwareness ints bools
        (e.start - jsOr (getSetting ints "meetingWarningMinutes") 5 * 60000)
        [e] nm0).1 = nm0 ++ [e.id] := by
      rw [checkMeetingAwareness_unfold ints bools _ [e] nm0 hen (by simp), hfire]
      exact prune_keep _ e _ (by omega)
    have hr2 : (checkMeetingAwareness ints bools
        (e.start - jsOr (getSetting ints "meetingWarningMinutes") 5 * 60000)
        [e] nm0).2 = [e.id] := by
      rw [checkMeetingAwareness_unfold ints bools _ [e] nm0 hen (by simp), hfire]
    have hcontains : (nm0 ++ [e.id]).contains e.id = true := by
      simp
    refine ⟨hr2, ?_, ?_⟩
    · rw [checkMeetingAwareness_unfold ints bools _ [e] _ hen (by simp), hr1,
        meetingLoop_single_skip _ _ _ e _ hcontains]
    · intro now3 h3
      rw [checkMeetingAwareness_unfold ints bools now3 [e] _ hen (by simp), hr1,
        meetingLoop_single_skip _ _ _ e _ hcontains]
      exact prune_drop_not_mem now3 e h3 (nm0 ++ [e.id])

/-- C7 witness: the theorem applied to a concrete meeting starting exactly
five minutes (the default lead) from the first tick. -/
theorem C7_witness :
    (checkMeetingAwareness [] [] 9700000 [⟨"evt1", 10000000⟩] []).2 = ["evt1"]
      ∧ (checkMeetingAwareness [] [] 9760000 [⟨"evt1", 10000000⟩]
          (checkMeetingAwareness [] [] 9700000 [⟨"evt1", 10000000⟩] []).1).2 = []
      ∧ (checkMeetingAwareness [] [] 13700001 [⟨"evt1", 10000000⟩]
          (checkMeetingAwareness [] [] 9700000 [⟨"evt1", 10000000⟩] []).1).1.contains
          "evt1" = false := by
  have hW : (10000000 : Int) - jsOr (getSetting [] "meetingWarningMinutes") 5 * 60000
      = 9700000 := by decide
  have hW2 : (9700000 : Int) + 60000 = 9760000 := by decide
  have h := C7_meeting_awareness.2 [] [] ⟨"evt1", 10000000⟩ []
    (by decide) (by decide) (by decide)
  rw [hW, hW2] at h
  exact ⟨h.1, h.2.1, h.2.2 13700001 (by decide)⟩

end AniMate
